import Mathlib

/-!
Verification of the DashScript runtime against its specification.

This file is a shallow embedding, in Lean 4, of the parts of the DashScript
repository that the checked claims are about:

* the mark-and-sweep per-handle sweep logic (`core/src/runtime/memory.rs`),
* the `FloatLike` dict-key wrapper (`src/vm/value.rs`),
* the bytecode encoder's constant-pool references (`src/bytecode/main.rs`),
* the virtual machine's value model, name registers, frames, expression
  evaluation, assignment and while-loop execution (`src/vm/vm.rs`).

Modelling conventions:

* Rust `Vec` becomes `List` (push = append at the end), `HashMap` for dict
  entries becomes an ordered entry list with HashMap-style insert/lookup.
* Machine integers are `Nat`; `u8`/`u32` casts are `% 256` / 4-byte
  little-endian splits where the source performs them.
* `f64` payloads of `Value::Num` are abstracted as `Int`: no claim checked
  here depends on float-specific arithmetic.  The `FloatLike` wrapper, whose
  claim is exactly about the 64-bit byte pattern, is modelled separately on
  bit patterns.
* Fallible code returns `Except`; a Rust panic (index out of bounds, integer
  underflow) is the distinguished error `VmErr.crash`; `std::process::exit`
  is `VmErr.processExit`.  Because the Rust VM mutates `&mut self` even on
  error paths, every executor returns its `VMState` alongside the `Except`.
* The source file `src/vm/value.rs` in the snapshot is an older revision than
  `src/vm/vm.rs` (it lacks `Dict`, `borrow`, `ControlFlow`), and the modules
  `vmcore`, `bytecode/reader.rs`, `common.rs` are not in the snapshot at all.
  Definitions for these missing parts are modelled from the specification and
  are marked `Modelled from the spec:` in their doc comments.
-/

namespace DashScript

/-! ## GC sweep (`core/src/runtime/memory.rs`) -/

/-- Object kind tags (`core/src/runtime/object.rs`, as used by `memory.rs`). -/
inductive ObjectKind where
  | nativeFunction
  | array
  | map
  | function
  | iterator
  | string
deriving DecidableEq

/-- A GC handle: the raw address is abstracted away, keeping the observable
content of the `GcHeader` behind it (the mark bit, `GcHeader.0`) and the kind
tag (`GcHandle.1`). -/
structure GcHandle where
  marked : Bool
  kind : ObjectKind
deriving DecidableEq

/-- `GcHandle::dealloc_if_unreachable` (memory.rs lines 137-159): if the mark
bit is clear the object is deallocated (kind-dispatched destructor; the handle
is gone, result `(true, none)`); otherwise the mark bit is cleared for the
next cycle and the object survives (result `(false, some cleared)`). -/
def deallocIfUnreachable (h : GcHandle) : Bool × Option GcHandle :=
  if !h.marked then
    (true, none)
  else
    (false, some { h with marked := false })

/-- Modelled from the spec: the sweep phase walks the handle table and applies
`dealloc_if_unreachable` to every handle, keeping the survivors.  (The walk
itself lives in the VM core of the `core` crate, which is not in the source
snapshot; only the per-handle logic is.) -/
def sweep (hs : List GcHandle) : List GcHandle :=
  hs.filterMap (fun h => (deallocIfUnreachable h).2)

/-! ## `FloatLike` (`src/vm/value.rs` lines 9-28)

`common.rs` is not in the snapshot; per the spec `fsize` is `f64` and
`MAX_BYTES` is 8 (numbers are 8-byte little-endian floats).  A float value is
represented here by its 64-bit pattern; this is faithful because `FloatLike`'s
`PartialEq` and `Hash` implementations observe the float only through
`to_le_bytes`. -/

/-- The 8 little-endian bytes of a 64-bit pattern (`f64::to_le_bytes`). -/
def f64ToLeBytes (bits : Nat) : List Nat :=
  [bits % 256, bits / 256 % 256, bits / 256 ^ 2 % 256, bits / 256 ^ 3 % 256,
   bits / 256 ^ 4 % 256, bits / 256 ^ 5 % 256, bits / 256 ^ 6 % 256, bits / 256 ^ 7 % 256]

/-- `FloatLike(pub fsize)`, the hashable float wrapper used for dict keys. -/
structure FloatLike where
  bits : Nat
deriving DecidableEq

/-- `FloatLike::to_bytes` (value.rs line 10). -/
def FloatLike.toBytes (x : FloatLike) : List Nat :=
  f64ToLeBytes x.bits

/-- `PartialEq for FloatLike` (value.rs lines 16-20): byte-pattern equality. -/
def floatLikeEq (a b : FloatLike) : Bool :=
  a.toBytes == b.toBytes

/-- Modelled from the spec: the Rust `Hasher` fed by `Hash for FloatLike`
(value.rs lines 24-28) is abstracted as a concrete function of the hashed byte
sequence; the implementation hashes exactly `self.to_bytes()`. -/
def hashBytes (bs : List Nat) : Nat :=
  bs.foldl (fun acc b => acc * 257 + b) 7

/-- `Hash for FloatLike`: hash of the little-endian bytes. -/
def floatLikeHash (x : FloatLike) : Nat :=
  hashBytes x.toBytes

/-- The IEEE-754 bit pattern of `0.0`. -/
def f64PosZero : FloatLike := ⟨0⟩

/-- The IEEE-754 bit pattern of `-0.0` (sign bit set). -/
def f64NegZero : FloatLike := ⟨2 ^ 63⟩

/-- The bit pattern of the canonical quiet `NaN` (`0x7FF8000000000000`). -/
def f64QuietNaN : FloatLike := ⟨0x7FF8000000000000⟩

/-! ## Bytecode encoder constant references (`src/bytecode/main.rs`) -/

/-- `Opcode` (main.rs lines 13-48), `#[repr(u8)]` in declaration order. -/
inductive Opcode where
  | trueOp | falseOp | nullOp | strOp | strLong | wordOp | wordLong | numOp
  | varOp | constOp | assignOp | callOp | attrOp | addOp | subOp | multOp
  | divOp | powOp | ternaryOp | arrayOp | dictOp | groupOp | awaitOp
  | invertOp | orOp | andOp | inOp | funcOp | funcEnd | returnOp
  | longOp | shortOp
deriving DecidableEq

/-- The `u8` discriminant of each opcode (`Opcode as u8`). -/
def Opcode.toByte : Opcode → Nat
  | .trueOp => 0 | .falseOp => 1 | .nullOp => 2 | .strOp => 3 | .strLong => 4
  | .wordOp => 5 | .wordLong => 6 | .numOp => 7 | .varOp => 8 | .constOp => 9
  | .assignOp => 10 | .callOp => 11 | .attrOp => 12 | .addOp => 13
  | .subOp => 14 | .multOp => 15 | .divOp => 16 | .powOp => 17
  | .ternaryOp => 18 | .arrayOp => 19 | .dictOp => 20 | .groupOp => 21
  | .awaitOp => 22 | .invertOp => 23 | .orOp => 24 | .andOp => 25
  | .inOp => 26 | .funcOp => 27 | .funcEnd => 28 | .returnOp => 29
  | .longOp => 30 | .shortOp => 31

/-- The 4 little-endian bytes of a `u32` (`(i as u32).to_le_bytes()`). -/
def u32ToLeBytes (n : Nat) : List Nat :=
  [n % 256, n / 256 % 256, n / 256 ^ 2 % 256, n / 256 ^ 3 % 256]

/-- `BytecodeCompiler::push_constant` (main.rs lines 223-246): emit a typed
constant reference for `constant` into the byte stream, de-duplicating by
linear scan.  Returns the emitted bytes and the (possibly extended) constant
pool.  `u8::MAX as usize` is 255; `i as u8` is `i % 256`. -/
def pushConstant (constants : List String) (opc lop : Opcode) (c : String) :
    List Nat × List String :=
  match constants.findIdx? (fun s => c == s) with
  | some i =>
    if constants.length ≥ 255 then
      (lop.toByte :: u32ToLeBytes i, constants)
    else
      ([opc.toByte, i % 256], constants)
  | none =>
    let i := constants.length
    let constants := constants ++ [c]
    if i ≥ 255 then
      (lop.toByte :: u32ToLeBytes i, constants)
    else
      ([opc.toByte, i % 256], constants)

/-- `BytecodeCompiler::push_constant_without_op` (main.rs lines 248-271): the
raw (untyped) constant reference, using the `Short`/`Long` sentinel opcodes. -/
def pushConstantWithoutOp (constants : List String) (c : String) :
    List Nat × List String :=
  match constants.findIdx? (fun s => c == s) with
  | some i =>
    if constants.length ≥ 255 then
      (Opcode.longOp.toByte :: u32ToLeBytes i, constants)
    else
      ([Opcode.shortOp.toByte, i % 256], constants)
  | none =>
    let i := constants.length
    let constants := constants ++ [c]
    if i ≥ 255 then
      (Opcode.longOp.toByte :: u32ToLeBytes i, constants)
    else
      ([Opcode.shortOp.toByte, i % 256], constants)

/-! ## The VM value model (`src/vm/value.rs` / `src/vm/vm.rs`)

The snapshot's `value.rs` is an older revision (its `Dict` is a bare map of
stack indices); `vm.rs` uses a two-variant `Dict` — `Dict::Map(entries,
Option<pointer>)` and `Dict::Ref(pointer)` — whose entries map a `ValueIndex`
to `(Value, is_mutable)` (spec §3).  The two `Dict` variants are inlined here
as the `Value.dictMap` / `Value.dictRef` constructors.  `Value::NativeFn` is
not embedded: no checked claim calls a native function. -/

/-- `ValueIndex`, the hashable projection of a value usable as a dict key
(value.rs lines 32-40).  The float payload follows the `Value.num` model. -/
inductive ValueIndex where
  | boolean (b : Bool)
  | str (s : String)
  | num (n : Int)
  | null
deriving DecidableEq

mutual
/-- `Value` (value.rs lines 42-55, in the revision `vm.rs` is written
against).  `Num` payloads are abstracted as `Int` (see the header). -/
inductive Value where
  | boolean (b : Bool)
  | str (s : String)
  | num (n : Int)
  | dictMap (entries : EntryList) (pointer : Option Nat)
  | dictRef (pointer : Nat)
  | array (items : List Nat)
  | func (id : Nat) (params : List (Nat × Bool)) (chunk : List Nat) (isAsync : Bool)
  | null

/-- The dict entry map `HashMap<ValueIndex, (Value, bool)>`, modelled as an
ordered entry list with HashMap-style insert/lookup semantics. -/
inductive EntryList where
  | nil
  | cons (key : ValueIndex) (val : Value) (mutb : Bool) (rest : EntryList)
end

/-- `HashMap::get`: the entry stored under `key`, if any. -/
def EntryList.lookup : EntryList → ValueIndex → Option (Value × Bool)
  | .nil, _ => none
  | .cons k v m rest, key => if k == key then some (v, m) else rest.lookup key

/-- `HashMap::insert`: replace the entry under `key`, or add it. -/
def EntryList.insertE : EntryList → ValueIndex → Value → Bool → EntryList
  | .nil, key, v, m => .cons key v m .nil
  | .cons k v0 m0 rest, key, v, m =>
    if k == key then .cons k v m rest else .cons k v0 m0 (rest.insertE key v m)

mutual
/-- `PartialEq for Value` (value.rs lines 77-90): structural equality with
arms for `Str`, `Num`, `Boolean`, `Func` (compared by chunk), `Dict` and
`Null`; everything else — in particular `Array` against `Array` — is `false`.
(The `NativeFn` pointer-equality arm is not embedded.) -/
def valueEq : Value → Value → Bool
  | .str a, .str b => a == b
  | .num a, .num b => a == b
  | .boolean a, .boolean b => a == b
  | .func _ _ ca _, .func _ _ cb _ => ca == cb
  | .dictMap e1 p1, .dictMap e2 p2 => entriesEq e1 e2 && p1 == p2
  | .dictRef a, .dictRef b => a == b
  | .null, .null => true
  | _, _ => false

/-- Entry-map equality used by the `Dict` arm of `valueEq`. -/
def entriesEq : EntryList → EntryList → Bool
  | .nil, .nil => true
  | .cons k1 v1 m1 r1, .cons k2 v2 m2 r2 =>
    k1 == k2 && valueEq v1 v2 && m1 == m2 && entriesEq r1 r2
  | _, _ => false
end

/-- `Value::type_as_str` (value.rs lines 100-112). -/
def Value.typeAsStr : Value → String
  | .boolean _ => "boolean"
  | .null => "null"
  | .str _ => "string"
  | .num _ => "number"
  | .func _ _ _ _ => "function"
  | .dictMap _ _ | .dictRef _ => "object"
  | .array _ => "array"

/-- `Value::to_value_index` (value.rs lines 114-121). -/
def Value.toValueIndex : Value → ValueIndex
  | .boolean b => .boolean b
  | .num n => .num n
  | .str s => .str s
  | _ => .null

/-- `ValueRegister` (value.rs lines 139-145): one named binding, pointing at a
value-stack slot, with its declaration depth and mutability. -/
structure ValueRegister where
  key : String
  id : Nat
  mutable : Bool
  depth : Nat
deriving DecidableEq

/-- `Frame` (vm.rs lines 35-39): the register cutoff `vi` and the name. -/
structure Frame where
  vi : Nat
  name : String
deriving DecidableEq

/-- The VM state (vm.rs lines 50-60), restricted to the fields the claims are
about.  The byte reader is abstracted away — instructions are modelled
pre-decoded — and so are `pos_map`, `filename`, `body_line_data` and
`permissions`; a `RuntimeError` is modelled by its message alone. -/
structure VMState where
  value_stack : List Value
  value_register : List ValueRegister
  frames : List Frame
  constants : List String

/-- Errors and non-error aborts of the modelled executors. -/
inductive VmErr where
  | runtime (msg : String)
  /-- A Rust panic: index out of bounds or `usize` underflow. -/
  | crash
  /-- `std::process::exit` (top-level `Return` / `Break`). -/
  | processExit
  /-- Fuel exhaustion of the fueled loop executor (a modelling device only). -/
  | outOfFuel
  /-- Source behavior outside the embedded fragment (string method tables and
  array indexing inside attribute reads); never reached by any theorem. -/
  | unmodeled

/-! ## VM helpers (`src/vm/vm.rs`) -/

/-- Modelled from the spec: `reader.get_constant(id)` (the reader module is
not in the snapshot).  Spec invariant 4: a constant id resolves to the
identical inserted string.  Out-of-range ids are abstracted as `""`; every
theorem uses in-range ids only. -/
def getConstant (st : VMState) (id : Nat) : String :=
  (st.constants.get? id).getD ""

/-- Modelled from the spec (§4.4 Truthiness): `builtin::bool` — false values
are `Boolean(false)`, `Null`, `Num(0.0)` and the empty string. -/
def truthy : Value → Bool
  | .boolean b => b
  | .null => false
  | .num n => n != 0
  | .str s => s != ""
  | _ => true

/-- Modelled from the spec (§4.4 Borrowing, §8 invariant 5): `Value::borrow`
promotes a not-yet-borrowed heap dict (`Dict::Map` without a pointer) to a
stack-resident object and rewrites the in-flight value as `Dict::Ref`;
borrowing anything else — including an already-borrowed dict — is a no-op. -/
def borrowV (st : VMState) (v : Value) : Value × VMState :=
  match v with
  | .dictMap e none =>
    let idx := st.value_stack.length
    (.dictRef idx, { st with value_stack := st.value_stack ++ [.dictMap e (some idx)] })
  | v => (v, st)

/-- `true` exactly when `borrowV` leaves the value and the state unchanged. -/
def isPlain : Value → Bool
  | .dictMap _ none => false
  | _ => true

/-- Modelled from the spec: `Value::to_pointer_value(i)` records the backing
stack slot inside a dict map; other values are returned unchanged. -/
def Value.toPointerValue (v : Value) (i : Nat) : Value :=
  match v with
  | .dictMap e _ => .dictMap e (some i)
  | v => v

/-- Modelled from the spec: `vmcore::add_values` (the `vmcore` module is not
in the snapshot; §4.4 says compound op `1` applies `add` to the existing
value).  Only the `Num`/`Num` case is exercised by the claims. -/
def addValues : Value → Value → Value
  | .num a, .num b => .num (a + b)
  | .str a, .str b => .str (a ++ b)
  | _, _ => .null

/-- Modelled from the spec: `vmcore::sub_values`, see `addValues`. -/
def subValues : Value → Value → Value
  | .num a, .num b => .num (a - b)
  | _, _ => .null

/-- Modelled from the spec: `builtin::inspect`, used only inside error
messages after their identifying prefix. -/
def inspectV : Value → String
  | .str s => s
  | .num n => toString n
  | .boolean b => if b then "true" else "false"
  | .null => "null"
  | .dictMap _ _ | .dictRef _ => "[object]"
  | .array _ => "[array]"
  | .func _ _ _ _ => "[function]"

/-- `Dict::entries(self)` — modelled from the spec (§3): a `Dict::Map` holds
its entries; a `Dict::Ref` resolves through the value stack. -/
def dictEntriesOf (st : VMState) : Value → EntryList
  | .dictMap es _ => es
  | .dictRef p =>
    match st.value_stack.get? p with
    | some (.dictMap es _) => es
    | _ => .nil
  | _ => .nil

/-- The backing stack slot of a dict, per the
`Dict::Ref(pointer) | Dict::Map(_, Some(pointer))` patterns of
`execute_assignment` (vm.rs lines 226, 264). -/
def dictPointer : Value → Option Nat
  | .dictRef p => some p
  | .dictMap _ (some p) => some p
  | _ => none

/-- `self.value_stack[i] = v`; `none` models the out-of-bounds panic. -/
def setStack (st : VMState) (i : Nat) (v : Value) : Option VMState :=
  if i < st.value_stack.length then
    some { st with value_stack := st.value_stack.set i v }
  else
    none

/-- The scan shared by `get_value` / `value_exists` / `get_value_register`
(vm.rs lines 904-955): walk the register from newest to oldest and return the
first entry whose key matches and whose depth is at most the current frame
depth. -/
def findRegister (entries : List ValueRegister) (key : String) (depth : Nat) :
    Option ValueRegister :=
  entries.reverse.find? (fun e => e.key == key && decide (e.depth ≤ depth))

/-- `VM::get_value` (vm.rs lines 904-918).  On an empty register the source
computes `value_register.len() - 1`, which underflows and panics (`none`); an
out-of-range `stack_index` panics likewise.  An unresolved name yields
`Value::Null`, not an error. -/
def getValue (st : VMState) (id : Nat) : Option Value :=
  if st.value_register.isEmpty then
    none
  else
    match findRegister st.value_register (getConstant st id) st.frames.length with
    | some e => st.value_stack.get? e.id
    | none => some .null

/-- `VM::value_exists` (vm.rs lines 920-933); `none` is the empty-register
underflow panic. -/
def valueExists (st : VMState) (key : String) : Option Bool :=
  if st.value_register.isEmpty then
    none
  else
    some (findRegister st.value_register key st.frames.length).isSome

/-- `VM::get_value_register` (vm.rs lines 935-955): like `get_value` but an
unresolved name is the `ExpectedValueStack` runtime error. -/
def getValueRegister (st : VMState) (id : Nat) : Except VmErr ValueRegister :=
  if st.value_register.isEmpty then
    .error .crash
  else
    match findRegister st.value_register (getConstant st id) st.frames.length with
    | some e => .ok e
    | none =>
      .error (.runtime
        ("ExpectedValueStack: Expected an value stack for " ++ getConstant st id ++ "."))

/-- `VM::add_value` (vm.rs lines 778-787): borrow the value, push it on the
value stack and append a register entry at the current frame depth. -/
def addValue (st : VMState) (name : String) (val : Value) (mutable : Bool) : VMState :=
  let r := borrowV st val
  let st1 := r.2
  let stack := st1.value_stack ++ [r.1]
  { st1 with
    value_stack := stack,
    value_register :=
      st1.value_register ++ [⟨name, stack.length - 1, mutable, st1.frames.length⟩] }

/-- `VM::create_frame` (vm.rs lines 879-884). -/
def createFrame (st : VMState) (name : String) : VMState :=
  { st with frames := st.frames ++ [⟨st.value_register.length, name⟩] }

/-- `Vec::pop` on the frame stack (`self.frames.pop()`): drops the top frame
and nothing else — in particular it does not truncate the value register. -/
def VMState.popFrame (st : VMState) : VMState :=
  { st with frames := st.frames.dropLast }

/-- `VM::remove_frame` (vm.rs lines 886-889): truncate the value register to
the top frame's recorded cutoff (`splice(..vi)` keeps the first `vi` entries),
then pop the frame; `none` is the `unwrap` panic on an empty frame stack. -/
def removeFrame (st : VMState) : Option VMState :=
  match st.frames.getLast? with
  | some f =>
    some { st with
      value_register := st.value_register.take f.vi,
      frames := st.frames.dropLast }
  | none => none

/-! ## Instructions and expression evaluation (`src/vm/vm.rs`) -/

/-- `LogicalOperator` (from `bytecode/reader.rs`, not in the snapshot; the
six variants are those matched by `execute_value`, vm.rs lines 525-554). -/
inductive LogicalOperator where
  | greaterThan
  | lessThan
  | greaterThanOrEqual
  | lessThanOrEqual
  | equal
  | notEqual
deriving DecidableEq

/-- The fragment of `InstructionValue` (decoded expressions) the claims are
about.  `Call`, `Array`, `Dict` literals and the logical connectives are not
embedded; `Func` carries its body chunk as raw bytes, exactly as decoded. -/
inductive InstructionValue where
  | tru
  | fls
  | null
  | num (n : Int)
  | str (id : Nat)
  | word (id : Nat)
  | group (inner : InstructionValue)
  | attr (body : InstructionValue) (attrEx : InstructionValue)
  | func (id : Nat) (params : List (Nat × Bool)) (chunk : List Nat) (isAsync : Bool)
  | condition (a : InstructionValue) (op : LogicalOperator) (b : InstructionValue)

/-- The fragment of decoded `Instruction` the claims are about; a while body
is modelled pre-decoded (`execute_while_loop` pre-decodes its chunk into a
`Vec<Instruction>` before iterating). -/
inductive Instruction where
  | var (nameId : Nat) (value : InstructionValue)
  | constDecl (nameId : Nat) (value : InstructionValue)
  | assign (target : InstructionValue) (op : Nat) (value : InstructionValue)
  | value (v : InstructionValue)
  | whileLoop (cond : InstructionValue) (body : List Instruction)
  | ret (v : InstructionValue)
  | breakI
  | continueI

/-- Sequencing for `VMState × Except`: the Rust `?` operator on a `&mut self`
method — the state survives an error, the continuation runs only on `Ok`. -/
def andThen {α β : Type} (r : VMState × Except VmErr α)
    (f : VMState → α → VMState × Except VmErr β) : VMState × Except VmErr β :=
  match r with
  | (st, .ok a) => f st a
  | (st, .error e) => (st, .error e)

/-- `VM::execute_value` (vm.rs lines 298-560), restricted to the embedded
expression fragment.  Notes kept from the source: the `Attr` arm evaluates the
attribute expression before the body (lines 320-321); the `Func` arm binds the
function under its compiled name — with no redeclaration check — unless that
name is `"anonymous"` (lines 476-484); the four ordering comparisons yield
`Boolean(false)` unless both operands are `Num` (lines 525-552) while
`Equal`/`NotEqual` use the `Value` structural equality (lines 553-554). -/
def executeValue : VMState → InstructionValue → VMState × Except VmErr Value
  | st, .tru => (st, .ok (.boolean true))
  | st, .fls => (st, .ok (.boolean false))
  | st, .null => (st, .ok .null)
  | st, .group inner => executeValue st inner
  | st, .str id => (st, .ok (.str (getConstant st id)))
  | st, .word id =>
    match getValue st id with
    | some v => (st, .ok v)
    | none => (st, .error .crash)
  | st, .num n => (st, .ok (.num n))
  | st, .attr rawBody rawAttr =>
    andThen (executeValue st rawAttr) fun st1 attrVal =>
    andThen (executeValue st1 rawBody) fun st2 body =>
    match body with
    | .dictMap _ _ | .dictRef _ =>
      match (dictEntriesOf st2 body).lookup attrVal.toValueIndex with
      | some (v, _) => (st2, .ok v)
      | none => (st2, .ok .null)
    | .str _ => (st2, .error .unmodeled)
    | .array _ => (st2, .error .unmodeled)
    | _ =>
      (st2, .error (.runtime
        ("UnexpectedAttributeAccess: You cannot access attributes of type "
          ++ body.typeAsStr ++ ".")))
  | st, .func id params chunk isAsync =>
    let name := getConstant st id
    let val := Value.func id params chunk isAsync
    if name ≠ "anonymous" then
      (addValue st name val false, .ok val)
    else
      (st, .ok val)
  | st, .condition a op b =>
    andThen (executeValue st a) fun st1 va =>
    andThen (executeValue st1 b) fun st2 vb =>
    match op with
    | .equal => (st2, .ok (.boolean (valueEq va vb)))
    | .notEqual => (st2, .ok (.boolean (!valueEq va vb)))
    | cmp =>
      match va, vb with
      | .num x, .num y =>
        (st2, .ok (.boolean (match cmp with
          | .greaterThan => decide (x > y)
          | .lessThan => decide (x < y)
          | .greaterThanOrEqual => decide (x ≥ y)
          | .lessThanOrEqual => decide (x ≤ y)
          | _ => false)))
      | _, _ => (st2, .ok (.boolean false))

/-- The `"+="`/`"-="`/`"unknown"` operator spelling used in the
`UnexpectedAssignment` message (vm.rs lines 252-256). -/
def opSymbol : Nat → String
  | 1 => "+="
  | 2 => "-="
  | _ => "unknown"

/-- The readonly-attribute message of `execute_assignment` (vm.rs line 221):
`format!("UnexpectedAttributeAccess: Property {} is readonly at {}.", ...)`. -/
def readonlyMsg (attr target : Value) : String :=
  "UnexpectedAttributeAccess: Property " ++ inspectV attr ++ " is readonly at "
    ++ inspectV target ++ "."

/-- `VM::execute_assignment` (vm.rs lines 172-296).  `lastStack` mirrors
`last_stack` (outermost call), `id` the threaded (never-read) `id` argument.
On success returns the `u32` the source returns (`0`, or the resolved slot id
when `last_stack` is false). -/
def executeAssignment :
    VMState → InstructionValue → Value → Nat → Bool → Nat →
      VMState × Except VmErr Nat
  | st, .word i, val, op, lastStack, _id =>
    match getValueRegister st i with
    | .error e => (st, .error e)
    | .ok oldVal =>
      if lastStack then
        if !oldVal.mutable then
          (st, .error (.runtime "AssignmentToConstant: You cannot assign a value to a constant"))
        else
          -- val = val.borrow(self); then the slot is replaced by the
          -- compound-op result, `.to_pointer_value(old_val.id)`
          let r := borrowV st val
          match r.2.value_stack.get? oldVal.id with
          | none => (r.2, .error .crash)
          | some cur =>
            let newVal :=
              (match op with
                | 0 => r.1
                | 1 => addValues cur r.1
                | 2 => subValues cur r.1
                | _ => Value.null).toPointerValue oldVal.id
            ({ r.2 with value_stack := r.2.value_stack.set oldVal.id newVal }, .ok 0)
      else
        (st, .ok oldVal.id)
  | st, .attr rawTarget rawAttr, val, op, lastStack, id =>
    match executeAssignment st rawTarget val op false id with
    | (st1, .error e) => (st1, .error e)
    | (st1, .ok targetId) =>
      match st1.value_stack.get? targetId with
      | none => (st1, .error .crash)
      | some target =>
        andThen (executeValue st1 rawAttr) fun st2 attr =>
        let attrIndex := attr.toValueIndex
        match target with
        | .dictMap _ _ | .dictRef _ =>
          let entries := dictEntriesOf st2 target
          match entries.lookup attrIndex with
          | some (oldV, isMutable) =>
            if lastStack then
              if !isMutable then
                (st2, .error (.runtime (readonlyMsg attr target)))
              else
                match dictPointer target with
                | some pointer =>
                  -- new_entries.insert(attr_index, (val.borrow(self), true))
                  let r := borrowV st2 val
                  let newEntries := entries.insertE attrIndex r.1 true
                  let newVal :=
                    (match op with
                      | 0 => Value.dictMap newEntries (some pointer)
                      | 1 => addValues oldV val
                      | 2 => subValues oldV val
                      | _ => Value.null).toPointerValue pointer
                  match setStack r.2 pointer newVal with
                  | some st3 => (st3, .ok targetId)
                  | none => (r.2, .error .crash)
                | none =>
                  (st2, .error (.runtime
                    ("SegmentationFault: Unexpected kind of dict "
                      ++ inspectV target ++ ".")))
            else
              (st2, .ok targetId)
          | none =>
            if lastStack then
              if op ≠ 0 then
                (st2, .error (.runtime
                  ("UnexpectedAssignment: You can only assign a value if the previous value is null but you have used a `"
                    ++ opSymbol op ++ "` operator.")))
              else
                let r := borrowV st2 val
                let newEntries := entries.insertE attrIndex r.1 true
                match dictPointer target with
                | some pointer =>
                  match setStack r.2 pointer (.dictMap newEntries (some pointer)) with
                  | some st3 => (st3, .ok 0)
                  | none => (r.2, .error .crash)
                | none =>
                  (r.2, .error (.runtime
                    ("SegmentationFault: Unexpected kind of dict "
                      ++ inspectV target ++ ".")))
            else
              (st2, .error (.runtime
                "UnexpectedAttributeAccess: You cannot access attributes of null."))
        | _ =>
          (st2, .error (.runtime
            ("UnexpectedAttributeAccess: You cannot set attributes of type "
              ++ target.typeAsStr ++ ".")))
  | st, _, _, _, _, _ =>
    (st, .error (.runtime "UnexpectedAssignment: Detected an unexpected assignment."))

/-! ## Instruction and while-loop execution (`src/vm/vm.rs`) -/

/-- The non-control-flow arms of `VM::execute_instruction` (vm.rs lines
115-168): `Var`, `Const`, `Assign`, `Value` and the top-level no-op
`Continue`.  The `While`, `Return` and `Break` arms are in `executeTop`. -/
def executeSimple (st : VMState) : Instruction → VMState × Except VmErr Unit
  | .var nameId v =>
    let name := getConstant st nameId
    andThen (executeValue st v) fun st1 val =>
    match valueExists st1 name with
    | none => (st1, .error .crash)
    | some true =>
      (st1, .error (.runtime
        ("AssignmentError: Identifier " ++ name ++ " has already declared.")))
    | some false => (addValue st1 name val true, .ok ())
  | .constDecl nameId v =>
    let name := getConstant st nameId
    andThen (executeValue st v) fun st1 val =>
    match valueExists st1 name with
    | none => (st1, .error .crash)
    | some true =>
      (st1, .error (.runtime
        ("AssignmentError: Identifier " ++ name ++ " has already declared.")))
    | some false => (addValue st1 name val false, .ok ())
  | .assign target op v =>
    andThen (executeValue st v) fun st1 val =>
    match executeAssignment st1 target val op true 0 with
    | (st2, .ok _) => (st2, .ok ())
    | (st2, .error e) => (st2, .error e)
  | .value v =>
    andThen (executeValue st v) fun st1 _ => (st1, .ok ())
  | .continueI => (st, .ok ())
  | _ => (st, .error .unmodeled)

/-- The outcome of one pass over a pre-decoded instruction list. -/
inductive PassOutcome where
  | finished
  | broke
  | returned (v : Value)

/-- The call shapes of the mutually recursive while-loop executor:
one pass over the body (`.pass`), the guarded iteration (`.iters`), and
`execute_while_loop` itself (`.whileLoop`). -/
inductive LoopCmd where
  | pass (insts : List Instruction)
  | iters (cond : InstructionValue) (body : List Instruction)
  | whileLoop (cond : InstructionValue) (body : List Instruction)

/-- `VM::execute_while_loop` (vm.rs lines 637-674) and the `for` loop over
its pre-decoded body, as one fuel-indexed function (every recursive call
consumes one unit of fuel; the source's recursion is unbounded).

Faithfully kept control-flow details:
* entering the loop pushes an `"@while"` frame (line 648); the byte-level
  chunk decoding and reader rebinding are abstracted (bodies are pre-decoded);
* a `Break` in the body makes the whole call `return Ok(None)` — without
  popping the frame, truncating the register or restoring the reader
  (line 657);
* a `Continue` executes Rust `continue` of the `for instruction in
  &instructions` loop, i.e. moves on to the next instruction of the same
  pass (line 658);
* a `Return` makes the call `return Ok(Some v))`, again without cleanup
  (line 659);
* a nested `While` that yields a value propagates it (lines 660-663);
* the normal exit (guard false) runs `self.frames.pop()` and restores the
  reader — it does not truncate the value register (lines 671-673). -/
def loopExec : Nat → LoopCmd → VMState → VMState × Except VmErr PassOutcome
  | 0, _, st => (st, .error .outOfFuel)
  | fuel + 1, .whileLoop c body, st =>
    loopExec fuel (.iters c body) (createFrame st "@while")
  | fuel + 1, .iters c body, st =>
    andThen (executeValue st c) fun st1 cv =>
    if truthy cv then
      match loopExec fuel (.pass body) st1 with
      | (st2, .ok .broke) => (st2, .ok .finished)
      | (st2, .ok (.returned v)) => (st2, .ok (.returned v))
      | (st2, .ok .finished) => loopExec fuel (.iters c body) st2
      | (st2, .error e) => (st2, .error e)
    else
      (st1.popFrame, .ok .finished)
  | _ + 1, .pass [], st => (st, .ok .finished)
  | fuel + 1, .pass (i :: rest), st =>
    match i with
    | .breakI => (st, .ok .broke)
    | .continueI => loopExec fuel (.pass rest) st
    | .ret v =>
      andThen (executeValue st v) fun st1 val => (st1, .ok (.returned val))
    | .whileLoop c b =>
      match loopExec fuel (.whileLoop c b) st with
      | (st1, .ok (.returned v)) => (st1, .ok (.returned v))
      | (st1, .ok _) => loopExec fuel (.pass rest) st1
      | (st1, .error e) => (st1, .error e)
    | _ =>
      match executeSimple st i with
      | (st1, .ok _) => loopExec fuel (.pass rest) st1
      | (st1, .error e) => (st1, .error e)

/-- One pass of the `for instruction in &instructions` loop (vm.rs 655-668). -/
def runPass (fuel : Nat) (insts : List Instruction) (st : VMState) :
    VMState × Except VmErr PassOutcome :=
  loopExec fuel (.pass insts) st

/-- `VM::execute_while_loop` (vm.rs lines 637-674): `Ok(None)` on normal or
`Break` exit, `Ok(Some v)` when a `Return` surfaced from the body. -/
def executeWhileLoop (fuel : Nat) (st : VMState) (cond : InstructionValue)
    (body : List Instruction) : VMState × Except VmErr (Option Value) :=
  match loopExec fuel (.whileLoop cond body) st with
  | (st1, .ok (.returned v)) => (st1, .ok (some v))
  | (st1, .ok _) => (st1, .ok none)
  | (st1, .error e) => (st1, .error e)

/-- `VM::execute_instruction` (vm.rs lines 115-168) in full: the `While` arm
calls `execute_while_loop` and discards its result; `Return` evaluates, prints
and exits the process; `Break` exits the process. -/
def executeTop (fuel : Nat) (st : VMState) : Instruction → VMState × Except VmErr Unit
  | .whileLoop c body =>
    match executeWhileLoop fuel st c body with
    | (st1, .ok _) => (st1, .ok ())
    | (st1, .error e) => (st1, .error e)
  | .ret v =>
    andThen (executeValue st v) fun st1 _ => (st1, .error .processExit)
  | .breakI => (st, .error .processExit)
  | i => executeSimple st i

/-! ## Shared helper lemmas -/

/-- Inversion for `andThen`: a successful sequencing means the first step
succeeded and the continuation produced the result. -/
theorem andThen_eq_ok {α β : Type} {r : VMState × Except VmErr α}
    {f : VMState → α → VMState × Except VmErr β} {st' : VMState} {b : β}
    (h : andThen r f = (st', .ok b)) :
    ∃ st1 a, r = (st1, .ok a) ∧ f st1 a = (st', .ok b) := by
  rcases r with ⟨s, r⟩
  cases r with
  | error e => simp [andThen] at h
  | ok a => exact ⟨s, a, rfl, h⟩

/-- The readonly-attribute message always begins with
`UnexpectedAttributeAccess`. -/
theorem readonlyMsg_startsWith (a t : Value) :
    ∃ rest, readonlyMsg a t = "UnexpectedAttributeAccess" ++ rest :=
  ⟨": Property " ++ inspectV a ++ " is readonly at " ++ inspectV t ++ ".", by
    rw [readonlyMsg,
      show ("UnexpectedAttributeAccess: Property " : String) =
        "UnexpectedAttributeAccess" ++ ": Property " from rfl]
    simp only [String.append_assoc]⟩

/-- Borrowing a plain value changes nothing. -/
theorem borrowV_plain {st : VMState} {v : Value} (h : isPlain v = true) :
    borrowV st v = (v, st) := by
  cases v with
  | dictMap e p => cases p <;> simp_all [isPlain, borrowV]
  | _ => rfl

/-- Borrowing never shrinks the value stack. -/
theorem borrowV_stack_length_le (st : VMState) (v : Value) :
    st.value_stack.length ≤ (borrowV st v).2.value_stack.length := by
  cases v with
  | dictMap e p => cases p <;> simp [borrowV]
  | _ => simp [borrowV]

/-! ## Claim theorems -/

/-- **C7.**  During sweep, a handle is deallocated exactly when its mark bit
is clear at sweep time (`dealloc_if_unreachable` returns `true` and the handle
is gone); a marked handle survives with its mark bit cleared for the next
cycle; consequently after a full sweep every surviving object has its mark bit
cleared. -/
theorem c7_sweep_mark_bit (h : GcHandle) :
    ((deallocIfUnreachable h).1 = true ↔ h.marked = false) ∧
    (h.marked = true → (deallocIfUnreachable h).2 = some ⟨false, h.kind⟩) ∧
    (h.marked = false → (deallocIfUnreachable h).2 = none) ∧
    (∀ hs h', h' ∈ sweep hs → h'.marked = false) := by
  refine ⟨?_, ?_, ?_, ?_⟩
  · cases hm : h.marked <;> simp [deallocIfUnreachable, hm]
  · intro hm; simp [deallocIfUnreachable, hm]
  · intro hm; simp [deallocIfUnreachable, hm]
  · intro hs h' hmem
    rw [sweep, List.mem_filterMap] at hmem
    obtain ⟨a, _, ha⟩ := hmem
    cases hm : a.marked <;> simp [deallocIfUnreachable, hm] at ha
    simp [← ha]

/-- Witness for C7 at concrete handles: a marked `Map` handle survives with
its bit cleared, an unmarked `Array` handle is deallocated, and all survivors
of a concrete sweep are unmarked. -/
theorem c7_sweep_mark_bit_witness :
    (deallocIfUnreachable ⟨true, .map⟩).2 = some ⟨false, .map⟩ ∧
    (deallocIfUnreachable ⟨false, .array⟩).2 = none ∧
    (∀ h' ∈ sweep [⟨true, .map⟩, ⟨false, .array⟩], h'.marked = false) := by
  refine ⟨(c7_sweep_mark_bit ⟨true, .map⟩).2.1 rfl,
    (c7_sweep_mark_bit ⟨false, .array⟩).2.2.1 rfl, ?_⟩
  intro h' hm
  exact (c7_sweep_mark_bit ⟨true, .map⟩).2.2.2 _ h' hm

/-- **C8.**  `FloatLike` equality and hashing are determined exactly by the
little-endian byte pattern: every float (in particular a NaN) is equal to
itself by representation, `0.0` and `-0.0` differ (distinct sign byte), and
equal byte patterns hash identically. -/
theorem c8_floatlike_byte_pattern (x y : FloatLike) :
    floatLikeEq x x = true ∧
    floatLikeEq f64PosZero f64NegZero = false ∧
    (x.toBytes = y.toBytes → floatLikeHash x = floatLikeHash y) := by
  refine ⟨?_, ?_, ?_⟩
  · simp [floatLikeEq]
  · decide
  · intro h; simp [floatLikeHash, h]

/-- Witness for C8: the quiet NaN pattern is self-equal, and equal byte
patterns (here: the same bits) hash identically. -/
theorem c8_floatlike_byte_pattern_witness :
    floatLikeEq f64QuietNaN f64QuietNaN = true ∧
    floatLikeHash ⟨42⟩ = floatLikeHash ⟨42⟩ :=
  ⟨(c8_floatlike_byte_pattern f64QuietNaN f64QuietNaN).1,
   (c8_floatlike_byte_pattern ⟨42⟩ ⟨42⟩).2.2 rfl⟩

/-- A constant pool with exactly 255 entries, `"x"` stored at index 0. -/
def pool255 : List String := "x" :: List.replicate 254 "y"

set_option maxRecDepth 4000 in
/-- **C4, counterexample.**  The claim says the one-byte form is used
"whenever the constant pool has at most 255 entries at emit time".  With a
pool of exactly 255 entries, emitting a typed reference to the existing
constant `"x"` (index 0) produces the `StrLong` 4-byte form, not
`[Str, 0]`: the source switches to the long form at `len >= u8::MAX`,
i.e. already at 255 entries. -/
theorem c4_pool_of_255_uses_long_form :
    pool255.length = 255 ∧
    (pushConstant pool255 .strOp .strLong "x").1 = [Opcode.strLong.toByte, 0, 0, 0, 0] ∧
    (pushConstant pool255 .strOp .strLong "x").1 ≠ [Opcode.strOp.toByte, 0] := by
  refine ⟨by decide, by decide, by decide⟩

/-- **C4, amended.**  A typed constant reference is the one-byte
`[op, index]` form exactly when the pool holds at most 254 entries at the
moment of the size check (for an existing constant, the current pool size;
for a new constant, the pool size before insertion — which equals the new
index); with 255 or more entries the `long_op` 4-byte little-endian form is
emitted.  The boundary depends only on the pool size, never on the referenced
index, and the pool is extended exactly when the constant was not present. -/
theorem c4_short_long_boundary (constants : List String) (opc lop : Opcode) (c : String) :
    (pushConstant constants opc lop c).1 =
      (if constants.length ≥ 255 then
        lop.toByte ::
          u32ToLeBytes ((constants.findIdx? (fun s => c == s)).getD constants.length)
      else
        [opc.toByte,
          ((constants.findIdx? (fun s => c == s)).getD constants.length) % 256]) ∧
    (pushConstant constants opc lop c).2 =
      (if (constants.findIdx? (fun s => c == s)).isSome then constants
       else constants ++ [c]) := by
  rcases h : constants.findIdx? (fun s => c == s) with _ | i <;>
    simp only [pushConstant, h, Option.getD_some, Option.getD_none, Option.isSome_some,
      Option.isSome_none] <;>
    by_cases hc : 255 ≤ constants.length <;> simp [hc]

/-- Initial state for the C1 break program: fresh VM, `@runtime` root only. -/
def c1StateA : VMState := ⟨[], [], [⟨0, "@runtime"⟩], []⟩

/-- Initial state for the C1 normal-exit program: one global `g`, constant
pool `["i"]`. -/
def c1StateB : VMState := ⟨[.null], [⟨"g", 0, false, 1⟩], [⟨0, "@runtime"⟩], ["i"]⟩

/-- **C1, refutation.**  Two top-level programs that terminate normally but
violate the claimed frame/register balance:

* `while (true) { break }` — the `Break` arm of `execute_while_loop` returns
  `Ok(None)` without popping the `@while` frame, so completion leaves
  `frames.len() == 2`, not 1;
* `while (i != 5) { var i = 5 }` — the normal exit pops the frame with
  `frames.pop()` but never truncates the value register, so the body's
  binding `i` (declared at depth 2) survives past the loop. -/
theorem c1_while_loop_leaks_frames :
    ((executeTop 8 c1StateA (.whileLoop .tru [.breakI])).2 = .ok () ∧
      (executeTop 8 c1StateA (.whileLoop .tru [.breakI])).1.frames =
        [⟨0, "@runtime"⟩, ⟨0, "@while"⟩]) ∧
    ((executeTop 8 c1StateB
        (.whileLoop (.condition (.word 0) .notEqual (.num 5)) [.var 0 (.num 5)])).2 = .ok () ∧
      (executeTop 8 c1StateB
        (.whileLoop (.condition (.word 0) .notEqual (.num 5)) [.var 0 (.num 5)])).1.frames =
        [⟨0, "@runtime"⟩] ∧
      (executeTop 8 c1StateB
        (.whileLoop (.condition (.word 0) .notEqual (.num 5)) [.var 0 (.num 5)])).1.value_register =
        [⟨"g", 0, false, 1⟩, ⟨"i", 1, true, 2⟩]) :=
  ⟨⟨rfl, rfl⟩, rfl, rfl, rfl⟩

/-- Initial state for the C2 program: mutable global `j = 0`. -/
def c2State : VMState := ⟨[.num 0], [⟨"j", 0, true, 1⟩], [⟨0, "@runtime"⟩], ["j"]⟩

/-- The loop guard `j != 5`. -/
def c2Cond : InstructionValue := .condition (.word 0) .notEqual (.num 5)

/-- The loop body `{ continue; j = 5 }`. -/
def c2Body : List Instruction := [.continueI, .assign (.word 0) 0 (.num 5)]

/-- **C2, refutation.**  In `while (j != 5) { continue; j = 5 }` the
`Continue` arm executes Rust `continue` of the inner `for instruction in
&instructions` loop, which merely advances to the next instruction of the
same pass: the assignment after the `continue` runs (`j` becomes 5) and the
loop then terminates.  Under the claim the rest of the pass would be
abandoned, `j` would stay 0 and the guard would remain true forever. -/
theorem c2_continue_runs_rest_of_pass :
    (executeWhileLoop 10 c2State c2Cond c2Body).2 = .ok none ∧
    (executeWhileLoop 10 c2State c2Cond c2Body).1.value_stack = [.num 5] :=
  ⟨rfl, rfl⟩

/-- State for the C3 counterexample: constant pool `["a"]`. -/
def c3State : VMState := ⟨[], [], [⟨0, "@runtime"⟩], ["a"]⟩

/-- **C3, counterexample.**  The claim says every comparison operator —
including `==` and `!=` — evaluates to `Boolean(false)` when the operands are
not both `Num`.  But `"a" == "a"` has two `Str` operands and evaluates to
`Boolean(true)`: the `Equal`/`NotEqual` arms use the `Value` structural
equality, not the both-`Num` test. -/
theorem c3_equal_strings_compare_true :
    executeValue c3State (.str 0) = (c3State, .ok (.str "a")) ∧
    executeValue c3State (.condition (.str 0) .equal (.str 0)) =
      (c3State, .ok (.boolean true)) ∧
    Value.boolean true ≠ Value.boolean false := by
  refine ⟨rfl, rfl, ?_⟩
  intro h
  injection h with h
  cases h

set_option maxHeartbeats 1600000 in
/-- **C3, amended.**  Every comparison yields a `Boolean`; the four ordering
operators (`>`, `<`, `>=`, `<=`) yield `Boolean(false)` whenever the two
evaluated operands are not both `Num`; `==` and `!=` instead apply the
`Value` structural equality (respectively its negation) to operands of any
type. -/
theorem c3_comparisons_boolean (st : VMState) (a b : InstructionValue)
    (op : LogicalOperator) (st' : VMState) (v : Value)
    (h : executeValue st (.condition a op b) = (st', .ok v)) :
    (∃ bb, v = .boolean bb) ∧
    ((op = .greaterThan ∨ op = .lessThan ∨ op = .greaterThanOrEqual ∨
        op = .lessThanOrEqual) →
      ∀ st1 va st2 vb, executeValue st a = (st1, .ok va) →
        executeValue st1 b = (st2, .ok vb) →
        (∀ x y, ¬(va = .num x ∧ vb = .num y)) → v = .boolean false) ∧
    (op = .equal →
      ∀ st1 va st2 vb, executeValue st a = (st1, .ok va) →
        executeValue st1 b = (st2, .ok vb) → v = .boolean (valueEq va vb)) ∧
    (op = .notEqual →
      ∀ st1 va st2 vb, executeValue st a = (st1, .ok va) →
        executeValue st1 b = (st2, .ok vb) → v = .boolean (!valueEq va vb)) := by
  simp only [executeValue] at h
  obtain ⟨s1, va, ha, h⟩ := andThen_eq_ok h
  obtain ⟨s2, vb, hb, h⟩ := andThen_eq_ok h
  refine ⟨?_, ?_, ?_, ?_⟩
  · cases op <;>
      first
        | (simp at h; exact ⟨_, h.2.symm⟩)
        | (cases va <;> cases vb <;> (simp at h; exact ⟨_, h.2.symm⟩))
  · intro hop st1 va' st2 vb' ha' hb' hnn
    rw [ha'] at ha
    cases ha
    rw [hb'] at hb
    cases hb
    rcases hop with rfl | rfl | rfl | rfl <;>
      cases va <;> cases vb <;>
        first
          | exact absurd ⟨rfl, rfl⟩ (hnn _ _)
          | (simp at h; exact h.2.symm)
  · rintro rfl st1 va' st2 vb' ha' hb'
    rw [ha'] at ha
    cases ha
    rw [hb'] at hb
    cases hb
    simp at h
    exact h.2.symm
  · rintro rfl st1 va' st2 vb' ha' hb'
    rw [ha'] at ha
    cases ha
    rw [hb'] at hb
    cases hb
    simp at h
    exact h.2.symm

/-- Witness for C3 (amended), exercising all three behavioral clauses at
concrete inputs: `null > null` yields `Boolean(false)` (operands not both
`Num`); `"a" == "a"` yields the structural equality of the two strings;
`null != 1` yields its negation. -/
theorem c3_comparisons_boolean_witness :
    (∃ bb, Value.boolean false = Value.boolean bb) ∧
    Value.boolean false = .boolean false ∧
    Value.boolean true = .boolean (valueEq (.str "a") (.str "a")) ∧
    Value.boolean true = .boolean (!valueEq .null (.num 1)) :=
  ⟨(c3_comparisons_boolean c3State .null .null .greaterThan c3State
      (.boolean false) rfl).1,
   (c3_comparisons_boolean c3State .null .null .greaterThan c3State
      (.boolean false) rfl).2.1 (Or.inl rfl) c3State .null c3State .null rfl rfl
      (fun _ _ hxy => Value.noConfusion hxy.1),
   (c3_comparisons_boolean c3State (.str 0) (.str 0) .equal c3State
      (.boolean true) rfl).2.2.1 rfl c3State (.str "a") c3State (.str "a") rfl rfl,
   (c3_comparisons_boolean c3State .null (.num 1) .notEqual c3State
      (.boolean true) rfl).2.2.2 rfl c3State .null c3State (.num 1) rfl rfl⟩

/-- **C9.**  A `Word` expression whose name does not resolve (no register
entry with a matching key at depth at most the current frame depth) evaluates
to `Value::Null` without raising any error, and `get_value` likewise answers
`Null`; the `ExpectedValueStack` error is produced only by
`get_value_register`, the resolver used for assignment targets.  (The
nonempty-register hypothesis reflects that `value_register.len() - 1` would
underflow on an empty register; `init_core` always seeds globals first.) -/
theorem c9_unresolved_word_reads_null (st : VMState) (wid : Nat)
    (hne : st.value_register ≠ [])
    (hmiss : ∀ e ∈ st.value_register,
      ¬(e.key = getConstant st wid ∧ e.depth ≤ st.frames.length)) :
    executeValue st (.word wid) = (st, .ok .null) ∧
    getValue st wid = some .null ∧
    getValueRegister st wid =
      .error (.runtime
        ("ExpectedValueStack: Expected an value stack for "
          ++ getConstant st wid ++ ".")) := by
  have hempty : st.value_register.isEmpty = false := by
    simp [List.isEmpty_eq_false, hne]
  have hfind :
      findRegister st.value_register (getConstant st wid) st.frames.length = none := by
    rw [findRegister, List.find?_eq_none]
    intro e he
    rw [List.mem_reverse] at he
    simpa using hmiss e he
  refine ⟨?_, ?_, ?_⟩
  · simp [executeValue, getValue, hempty, hfind]
  · simp [getValue, hempty, hfind]
  · simp [getValueRegister, hempty, hfind]

/-- State for the C9 witness: one global `g`, pool `["missing"]`. -/
def c9State : VMState := ⟨[.num 1], [⟨"g", 0, true, 1⟩], [⟨0, "@runtime"⟩], ["missing"]⟩

/-- Witness for C9: reading the unresolved name `missing` yields `Null`
without error, while the assignment-target resolver raises
`ExpectedValueStack`. -/
theorem c9_unresolved_word_reads_null_witness :
    executeValue c9State (.word 0) = (c9State, .ok .null) ∧
    getValue c9State 0 = some .null ∧
    getValueRegister c9State 0 =
      .error (.runtime "ExpectedValueStack: Expected an value stack for missing.") :=
  c9_unresolved_word_reads_null c9State 0 (by decide) (by decide)

/-- **C10.**  Evaluating a function expression whose compiled name constant is
not `"anonymous"` returns the `Func` value and also appends a register entry
binding that name to it — pushed on the value stack, at the current frame
depth, with `mutable = false` — performing no redeclaration check (there is no
hypothesis about the name being free, unlike `Var`/`Const` which error on
redeclaration); a function named `"anonymous"` leaves the state untouched. -/
theorem c10_named_func_self_binds (st : VMState) (fid : Nat)
    (params : List (Nat × Bool)) (chunk : List Nat) (isAsync : Bool) :
    (getConstant st fid ≠ "anonymous" →
      executeValue st (.func fid params chunk isAsync) =
        ({ st with
            value_stack := st.value_stack ++ [.func fid params chunk isAsync],
            value_register := st.value_register ++
              [⟨getConstant st fid, st.value_stack.length, false, st.frames.length⟩] },
          .ok (.func fid params chunk isAsync))) ∧
    (getConstant st fid = "anonymous" →
      executeValue st (.func fid params chunk isAsync) =
        (st, .ok (.func fid params chunk isAsync))) := by
  constructor
  · intro hn
    simp [executeValue, hn, addValue, borrowV]
  · intro hn
    simp [executeValue, hn]

/-- State for the C10 witness: `f` is already declared as a global and the
pool also holds `"anonymous"`. -/
def c10State : VMState :=
  ⟨[.num 7], [⟨"f", 0, true, 1⟩], [⟨0, "@runtime"⟩], ["f", "anonymous"]⟩

/-- Witness for C10: a function named `f` rebinds `f` without any
redeclaration error even though `f` already resolves, and an `anonymous`
function adds no binding. -/
theorem c10_named_func_self_binds_witness :
    executeValue c10State (.func 0 [] [] false) =
      ({ c10State with
          value_stack := [.num 7, .func 0 [] [] false],
          value_register := [⟨"f", 0, true, 1⟩, ⟨"f", 1, false, 1⟩] },
        .ok (.func 0 [] [] false)) ∧
    executeValue c10State (.func 1 [] [] false) =
      (c10State, .ok (.func 1 [] [] false)) :=
  ⟨(c10_named_func_self_binds c10State 0 [] [] false).1 (by decide),
   (c10_named_func_self_binds c10State 1 [] [] false).2 rfl⟩

/-- **C6.**  Assigning through a `Word` target that resolves to an immutable
register entry fails with the `AssignmentToConstant` error and leaves the
referenced value-stack slot unchanged (the state returned alongside the error
is the input state); when the entry is mutable the referenced slot is mutated:
replaced for compound-op 0, combined with `add_values`/`sub_values` for ops
1/2 (then re-pointered via `to_pointer_value`). -/
theorem c6_word_target_mutability (st : VMState) (wid : Nat)
    (e : ValueRegister) (old : Value)
    (h1 : getValueRegister st wid = .ok e)
    (h2 : st.value_stack.get? e.id = some old) :
    (e.mutable = false → ∀ v op,
      executeAssignment st (.word wid) v op true 0 =
        (st, .error (.runtime
          "AssignmentToConstant: You cannot assign a value to a constant")) ∧
      (executeAssignment st (.word wid) v op true 0).1.value_stack.get? e.id =
        some old) ∧
    (e.mutable = true → ∀ v, isPlain v = true →
      executeAssignment st (.word wid) v 0 true 0 =
        ({ st with value_stack := st.value_stack.set e.id (v.toPointerValue e.id) },
          .ok 0) ∧
      executeAssignment st (.word wid) v 1 true 0 =
        ({ st with
            value_stack := st.value_stack.set e.id ((addValues old v).toPointerValue e.id) },
          .ok 0) ∧
      executeAssignment st (.word wid) v 2 true 0 =
        ({ st with
            value_stack := st.value_stack.set e.id ((subValues old v).toPointerValue e.id) },
          .ok 0)) := by
  have h2' : st.value_stack[e.id]? = some old := by
    rw [← List.get?_eq_getElem?]; exact h2
  constructor
  · intro hm v op
    refine ⟨?_, ?_⟩ <;> simp [executeAssignment, h1, hm, h2']
  · intro hm v hp
    have hb : borrowV st v = (v, st) := borrowV_plain hp
    refine ⟨?_, ?_, ?_⟩ <;> simp [executeAssignment, h1, hm, hb, h2']

/-- State for the C6 witness: an immutable `c ↦ Num 7` and a mutable
`m ↦ Num 3`. -/
def c6State : VMState :=
  ⟨[.num 7, .num 3], [⟨"c", 0, false, 1⟩, ⟨"m", 1, true, 1⟩], [⟨0, "@runtime"⟩],
    ["c", "m"]⟩

/-- Witness for C6: `c = 2` fails with `AssignmentToConstant` leaving slot 0
at `Num 7`; `m = 2`, `m += 2`, `m -= 2` replace / add to / subtract from
slot 1. -/
theorem c6_word_target_mutability_witness :
    (executeAssignment c6State (.word 0) (.num 2) 0 true 0 =
      (c6State, .error (.runtime
        "AssignmentToConstant: You cannot assign a value to a constant")) ∧
      (executeAssignment c6State (.word 0) (.num 2) 0 true 0).1.value_stack.get? 0 =
        some (.num 7)) ∧
    (executeAssignment c6State (.word 1) (.num 2) 0 true 0 =
      ({ c6State with value_stack := [.num 7, .num 2] }, .ok 0) ∧
      executeAssignment c6State (.word 1) (.num 2) 1 true 0 =
        ({ c6State with value_stack := [.num 7, .num 5] }, .ok 0) ∧
      executeAssignment c6State (.word 1) (.num 2) 2 true 0 =
        ({ c6State with value_stack := [.num 7, .num 1] }, .ok 0)) :=
  ⟨(c6_word_target_mutability c6State 0 ⟨"c", 0, false, 1⟩ (.num 7) rfl rfl).1
      rfl (.num 2) 0,
   (c6_word_target_mutability c6State 1 ⟨"m", 1, true, 1⟩ (.num 3) rfl rfl).2
      rfl (.num 2) rfl⟩

/-- **C5.**  Assigning to an attribute of a dict backed by stack slot `e.id`:
when the key has no entry and the compound op is `0`, a new
`(borrowed value, mutable = true)` entry is inserted and the backing slot is
rewritten with the extended map; when the key has no entry and the op is `1`
or `2`, the assignment fails with the `UnexpectedAssignment` message; when the
key's entry is marked immutable, it fails with a message beginning with
`UnexpectedAttributeAccess`. -/
theorem c5_dict_attr_assignment (st : VMState) (wid aid : Nat)
    (e : ValueRegister) (es : EntryList) (v w : Value)
    (h1 : getValueRegister st wid = .ok e)
    (h2 : st.value_stack.get? e.id = some (.dictMap es (some e.id))) :
    (es.lookup (.str (getConstant st aid)) = none →
      executeAssignment st (.attr (.word wid) (.str aid)) v 0 true 0 =
        ({ (borrowV st v).2 with
            value_stack := (borrowV st v).2.value_stack.set e.id
              (.dictMap
                (es.insertE (.str (getConstant st aid)) (borrowV st v).1 true)
                (some e.id)) },
          .ok 0) ∧
      (executeAssignment st (.attr (.word wid) (.str aid)) v 0 true 0).1.value_stack.get? e.id =
        some (.dictMap
          (es.insertE (.str (getConstant st aid)) (borrowV st v).1 true)
          (some e.id))) ∧
    (∀ op, (op = 1 ∨ op = 2) → es.lookup (.str (getConstant st aid)) = none →
      executeAssignment st (.attr (.word wid) (.str aid)) v op true 0 =
        (st, .error (.runtime
          ("UnexpectedAssignment: You can only assign a value if the previous value is null but you have used a `"
            ++ opSymbol op ++ "` operator.")))) ∧
    (es.lookup (.str (getConstant st aid)) = some (w, false) →
      ∃ rest, executeAssignment st (.attr (.word wid) (.str aid)) v 0 true 0 =
        (st, .error (.runtime ("UnexpectedAttributeAccess" ++ rest)))) := by
  obtain ⟨hlt, -⟩ := List.get?_eq_some.mp h2
  have h2' : st.value_stack[e.id]? = some (.dictMap es (some e.id)) := by
    rw [← List.get?_eq_getElem?]; exact h2
  have hlt2 : e.id < (borrowV st v).2.value_stack.length :=
    Nat.lt_of_lt_of_le hlt (borrowV_stack_length_le st v)
  refine ⟨?_, ?_, ?_⟩
  · intro hlook
    constructor
    · simp [executeAssignment, h1, h2', executeValue, andThen, Value.toValueIndex,
        dictEntriesOf, hlook, dictPointer, setStack, hlt2, Value.toPointerValue]
    · simp [executeAssignment, h1, h2', executeValue, andThen, Value.toValueIndex,
        dictEntriesOf, hlook, dictPointer, setStack, hlt2, Value.toPointerValue,
        List.get?_eq_getElem?, List.getElem?_set_self hlt2]
  · rintro op (rfl | rfl) hlook <;>
      simp [executeAssignment, h1, h2', executeValue, andThen, Value.toValueIndex,
        dictEntriesOf, hlook]
  · intro hlook
    obtain ⟨rest, hrest⟩ :=
      readonlyMsg_startsWith (.str (getConstant st aid)) (.dictMap es (some e.id))
    refine ⟨rest, ?_⟩
    rw [← hrest]
    simp [executeAssignment, h1, h2', executeValue, andThen, Value.toValueIndex,
      dictEntriesOf, hlook]

/-- Entry map for the C5 witness: one readonly entry `ro ↦ null`. -/
def c5Entries : EntryList := .cons (.str "ro") .null false .nil

/-- State for the C5 witness: `d` is a borrowed dict backed by stack slot 0;
the pool holds the dict name, a fresh key `nk`, and the readonly key `ro`. -/
def c5State : VMState :=
  ⟨[.dictMap c5Entries (some 0)], [⟨"d", 0, true, 1⟩], [⟨0, "@runtime"⟩],
    ["d", "nk", "ro"]⟩

/-- Witness for C5: `d.nk = 9` inserts `(Num 9, mutable)` into the backing
slot, `d.nk += 9` on the missing key fails with `UnexpectedAssignment`, and
`d.ro = 9` on the readonly entry fails with `UnexpectedAttributeAccess`. -/
theorem c5_dict_attr_assignment_witness :
    (executeAssignment c5State (.attr (.word 0) (.str 1)) (.num 9) 0 true 0 =
      ({ c5State with
          value_stack :=
            [.dictMap (.cons (.str "ro") .null false
              (.cons (.str "nk") (.num 9) true .nil)) (some 0)] },
        .ok 0)) ∧
    (executeAssignment c5State (.attr (.word 0) (.str 1)) (.num 9) 1 true 0 =
      (c5State, .error (.runtime
        ("UnexpectedAssignment: You can only assign a value if the previous value is null but you have used a `"
          ++ opSymbol 1 ++ "` operator.")))) ∧
    (∃ rest, executeAssignment c5State (.attr (.word 0) (.str 2)) (.num 9) 0 true 0 =
      (c5State, .error (.runtime ("UnexpectedAttributeAccess" ++ rest)))) :=
  ⟨((c5_dict_attr_assignment c5State 0 1 ⟨"d", 0, true, 1⟩ c5Entries (.num 9) .null
      rfl rfl).1 rfl).1,
   (c5_dict_attr_assignment c5State 0 1 ⟨"d", 0, true, 1⟩ c5Entries (.num 9) .null
      rfl rfl).2.1 1 (Or.inl rfl) rfl,
   (c5_dict_attr_assignment c5State 0 2 ⟨"d", 0, true, 1⟩ c5Entries (.num 9) .null
      rfl rfl).2.2 rfl⟩

end DashScript
